import Mathlib

/-!
Verification of the citrus-agent control core (src/src/agent.js) against its
natural-language specification.

The repository ships two snapshots of `src/agent.js` (they appear
concatenated in `src/src/agent.js`); we embed them as namespaces `V1`
(the first snapshot, lines 1-386) and `V2` (the second snapshot,
lines 387-867).  Each claim is settled against the snapshot that contains
the deciding code.  Parts of the repository that are referenced but absent
from the sources we were given (the interactive SSL prompt-automation
engine, the full ten-entry dispatch table, and the `updateKeyFile`
persistence routine) are modelled from the spec and are marked as such.

External collaborators (the `ws` transport, `child_process.exec`,
`systeminformation`, JSON.parse) are modelled as environment records whose
fields hold the value or error each call site receives, and as an explicit
effect trace recording every observable action the agent takes.
-/

/-! ## String utilities (kernel-computable models of the JS string ops) -/

/-- Is `needle` a prefix of `hay` (char lists)? -/
def isPrefixL : List Char → List Char → Bool
  | [], _ => true
  | _ :: _, [] => false
  | a :: as, b :: bs => a == b && isPrefixL as bs

/-- Does `needle` occur contiguously inside `hay`?  Model of
JavaScript `String.prototype.includes`. -/
def hasSub : List Char → List Char → Bool
  | [], needle => needle.isEmpty
  | h :: t, needle => isPrefixL needle (h :: t) || hasSub t needle

/-- Model of JS `hay.includes(needle)`. -/
def jsIncludes (hay needle : String) : Bool :=
  hasSub hay.toList needle.toList

/-- Lower-cased character list of a string; model of JS `s.toLowerCase()`
(ASCII-faithful, which covers every string the agent compares). -/
def lowerChars (s : String) : List Char :=
  s.toList.map Char.toLower

/-- Model of JS `s.trim()`: strip leading and trailing whitespace. -/
def jsTrim (s : String) : String :=
  String.mk (((s.toList.dropWhile Char.isWhitespace).reverse.dropWhile
    Char.isWhitespace).reverse)

/-- JS string interpolation of a possibly-undefined value:
`undefined` prints as "undefined". -/
def jsStr : Option String → String
  | some s => s
  | none => "undefined"

/-- JS falsiness of a possibly-undefined string: `undefined`, `null` and
`""` are falsy. -/
def jsFalsy : Option String → Bool
  | none => true
  | some s => s.isEmpty

/-- JS `Math.round` of a rational: round half toward positive infinity.
(IEEE doubles are approximated by rationals; no claim depends on float
precision.) -/
def jsRound (x : ℚ) : ℤ := ⌊x + 1/2⌋

/-! ## Data model -/

/-- A decoded inbound control message (`JSON.parse` result).  Fields the
handlers destructure; a missing field is JS `undefined`, i.e. `none`. -/
structure InMsg where
  type : String
  domain : Option String := none
  newKey : Option String := none
  commitId : Option String := none
deriving DecidableEq, Repr

/-- One filesystem entry returned by the telemetry collaborator
(`si.fsSize()`). -/
structure DiskInfo where
  fs : String
  mount : String
  size : ℤ
  used : ℤ
  available : ℤ
deriving DecidableEq, Repr

/-- The status snapshot built by `collectStatus` (second snapshot). -/
structure StatusSnap where
  hostname : String
  uptime : Nat
  gitVersion : Option String
  cpuLoad : ℚ
  cpuCores : Nat
  memTotal : ℤ
  memUsed : ℤ
  memFree : ℤ
  diskTotal : ℤ
  diskUsed : ℤ
  diskFree : ℤ
  diskPct : ℤ
  mariadb : Bool
  openlitespeed : Bool
  timestamp : Nat
deriving DecidableEq, Repr

/-- Outbound payloads (the `type` field of each frame the agent sends,
with the fields the claims inspect). -/
inductive Outbound
  | agentConnected (agentId : String)
  | clearCommandState (agentId : String) (message : String)
  | statusUpdate (status : StatusSnap)
  | errorReport (error : String) (originalMessage : Option String)
  | keyRotation (status : String) (error : Option String)
  | updateOperation (status : String) (gitVersion : Option String)
      (output : Option String) (error : Option String)
  | rollbackOperation (status : String) (commitId : Option String)
      (gitVersion : Option String) (version : Option String)
      (output : Option String) (error : Option String)
  | statusMsg (operation : String) (status : String)
      (message : Option String) (output : Option String)
      (error : Option String) (fullOutput : Option String)
  | agentUpdated (success : Bool) (version : Option String)
      (message : Option String)
deriving DecidableEq, Repr

/-- Observable actions of the agent: each entry is one call into a
collaborator or the event loop, in program order. -/
inductive Effect
  | send (m : Outbound)
  | exec (cmd : String)
  | spawnProc (cmd : String) (args : List String)
  | persistKey (newKey : Option String)
  | startHeartbeat (periodMs : Nat)
  | clearHeartbeat
  | scheduleReconnect (delayMs : Nat)
  | wsConnect (clientType : String) (agentId : String) (agentKey : Option String)
  | waitMs (ms : Nat)
  | exitProcess (code : Nat)
  | uncaught (error : String)
deriving DecidableEq, Repr

/-- The mutable fields of the `CitrusAgent` instance.  `statusInterval`
holds the id of the live heartbeat timer (ids are allocated freshly from
`nextId`, modelling that a cleared Node interval can never fire again). -/
structure AgentState where
  agentId : String
  agentKey : Option String
  reconnectTimeout : Nat
  statusInterval : Option Nat
  nextId : Nat
  gitVersion : Option String
deriving DecidableEq, Repr

def withGit (s : AgentState) (v : Option String) : AgentState :=
  { s with gitVersion := v }

def withKey (s : AgentState) (k : Option String) : AgentState :=
  { s with agentKey := k }

@[simp] theorem withGit_statusInterval (s v) :
    (withGit s v).statusInterval = s.statusInterval := rfl
@[simp] theorem withGit_nextId (s v) : (withGit s v).nextId = s.nextId := rfl
@[simp] theorem withGit_reconnectTimeout (s v) :
    (withGit s v).reconnectTimeout = s.reconnectTimeout := rfl
@[simp] theorem withGit_agentId (s v) : (withGit s v).agentId = s.agentId := rfl
@[simp] theorem withKey_statusInterval (s k) :
    (withKey s k).statusInterval = s.statusInterval := rfl
@[simp] theorem withKey_nextId (s k) : (withKey s k).nextId = s.nextId := rfl
@[simp] theorem withKey_reconnectTimeout (s k) :
    (withKey s k).reconnectTimeout = s.reconnectTimeout := rfl
@[simp] theorem withKey_agentKey (s k) : (withKey s k).agentKey = k := rfl
@[simp] theorem withKey_agentId (s k) : (withKey s k).agentId = s.agentId := rfl

/-! ## Collaborator environments

Each field holds what the corresponding call site receives from the
collaborator: `Except.ok` models a resolved promise, `Except.error e`
models a rejection whose `error.message` is `e`. -/

/-- Results the git / npm / systemctl call sites of one update or rollback
invocation receive. -/
structure GitEnv where
  fetchAll : Except String String
  revParseBefore : Except String String
  resetHard : Except String (String × String)
  revParseAfter : Except String String
  npmInstall : Except String String
  systemctlRestart : Except String String

/-- Telemetry collaborator results for one `collectStatus` call. -/
structure StatusEnv where
  gitRevParse : Except String String
  cpuLoad : ℚ
  memTotal : ℤ
  memUsed : ℤ
  memFree : ℤ
  fsSize : List DiskInfo
  mariadb : Except String String
  lshttpd : Except String String
  hostname : String
  uptime : Nat
  cores : Nat
  now : Nat

/-- Results for one `system_update` invocation: does the install script
exist, the chmod result, the streamed chunks (`Sum.inl` = stdout chunk,
`Sum.inr` = stderr chunk) and the outcome (`Except.error` = spawn error,
`Except.ok code` = exit code). -/
structure SysEnv where
  scriptExists : Bool
  chmod : Except String String
  chunks : List (Sum String String)
  outcome : Except String Nat

/-- The whole environment one event dispatch runs against. -/
structure Env where
  parse : String → Except String InMsg
  git : GitEnv
  rollbackGit : GitEnv
  keyFile : Except String Unit
  status : StatusEnv
  sys : SysEnv

/-! ## Shared helpers embedded from the source -/

/-- `getGitVersion` (both snapshots): runs `git rev-parse HEAD`; on
success stores the trimmed stdout in `this.gitVersion`, on error stores
the string "unknown".  Never throws. -/
def getGitVersionS (r : Except String String) (s : AgentState) : AgentState :=
  match r with
  | .ok out => withGit s (some (jsTrim out))
  | .error _ => withGit s (some "unknown")

/-- `checkServiceStatus` (second snapshot): `systemctl is-active <svc>`;
active iff the trimmed stdout equals "active"; any error yields false. -/
def checkServiceStatus (r : Except String String) : Bool :=
  match r with
  | .ok out => jsTrim out == "active"
  | .error _ => false

/-- Bytes per gigabyte, as used by `collectStatus`. -/
def gb : ℚ := 1024 * 1024 * 1024

/-- `collectStatus` (second snapshot, lines 517-560).  Returns the new
agent state and either the built snapshot or the JS exception that
escapes when the filesystem list is empty: `disk.find(..) || disk[0]`
is then `undefined` and `mainDisk.size` throws a TypeError. -/
def collectStatus (env : StatusEnv) (s : AgentState) :
    AgentState × Except String StatusSnap :=
  let s' := getGitVersionS env.gitRevParse s
  let disk := env.fsSize
  let services :=
    (checkServiceStatus env.mariadb, checkServiceStatus env.lshttpd)
  let mainDisk :=
    match disk.find? (fun d => d.fs == "/" || d.mount == "/") with
    | some d => some d
    | none => disk.head?
  match mainDisk with
  | none =>
      (s', .error "TypeError: Cannot read properties of undefined")
  | some d =>
      (s', .ok {
        hostname := env.hostname
        uptime := env.uptime
        gitVersion := s'.gitVersion
        cpuLoad := (jsRound (env.cpuLoad * 100) : ℚ) / 100
        cpuCores := env.cores
        memTotal := jsRound ((env.memTotal : ℚ) / gb)
        memUsed := jsRound ((env.memUsed : ℚ) / gb)
        memFree := jsRound ((env.memFree : ℚ) / gb)
        diskTotal := jsRound ((d.size : ℚ) / gb)
        diskUsed := jsRound ((d.used : ℚ) / gb)
        diskFree := jsRound (((d.size - d.used : ℤ) : ℚ) / gb)
        diskPct := jsRound ((d.used : ℚ) / (d.size : ℚ) * 100)
        mariadb := services.1
        openlitespeed := services.2
        timestamp := env.now })

/-- The stderr-scan of the update handler (first snapshot, lines
256-259). -/
def errorIndicatorsUpdate : List String :=
  ["fatal:", "error:", "cannot", "denied", "Could not", "not found",
   "failed", "unable to", "unresolved", "Permission denied"]

/-- The stderr-scan of the rollback handler (first snapshot, lines
324-327). -/
def errorIndicatorsRollback : List String :=
  ["fatal:", "error:", "cannot", "denied", "Could not", "not found",
   "failed", "unable to", "unresolved", "Permission denied",
   "unknown revision"]

/-- `errorIndicators.some(i => stderr.toLowerCase().includes(i.toLowerCase()))`. -/
def hasRealError (indicators : List String) (stderr : String) : Bool :=
  indicators.any (fun ind => hasSub (lowerChars stderr) (lowerChars ind))

/-- JS `stdout + (stderr ? "\n" + stderr : "")`. -/
def composeOutput (out err : String) : String :=
  if err.isEmpty then out else out ++ "\n" ++ err

namespace V1

/-- `handleUpdateAgent`, first snapshot (lines 240-299): fetch, hard
reset, scan stderr for failure markers, then report completed and ask
systemctl for a restart (whose own failure is swallowed). -/
def handleUpdateAgent (g : GitEnv) (s : AgentState) :
    AgentState × List Effect :=
  let fail := fun (e : String) =>
    Effect.send (Outbound.updateOperation "failed" none none (some e))
  let pre := [Effect.send (Outbound.updateOperation "starting" none none none),
              Effect.exec "git fetch --all"]
  match g.fetchAll with
  | .error e => (s, pre ++ [fail e])
  | .ok _ =>
    let pre := pre ++ [Effect.exec "git reset --hard origin/main"]
    match g.resetHard with
    | .error e => (s, pre ++ [fail e])
    | .ok res =>
      if hasRealError errorIndicatorsUpdate res.2 then
        (s, pre ++ [fail ("Git update error: " ++ res.2)])
      else
        let pre := pre ++ [Effect.exec "git rev-parse HEAD"]
        let s' := getGitVersionS g.revParseAfter s
        (s', pre ++
          [Effect.send (Outbound.updateOperation "completed" s'.gitVersion
             (some (composeOutput res.1 res.2)) none),
           Effect.exec "systemctl restart citrus-agent"])

/-- `handleRollbackAgent`, first snapshot (lines 301-367): a falsy
`commitId` throws before any git call; otherwise fetch, reset to the
commit, scan stderr, report completed, restart via systemctl. -/
def handleRollbackAgent (g : GitEnv) (s : AgentState) (m : InMsg) :
    AgentState × List Effect :=
  let fail := fun (e : String) =>
    Effect.send (Outbound.rollbackOperation "failed" none none none none (some e))
  if jsFalsy m.commitId then
    (s, [fail "No commit ID provided for rollback"])
  else
    let pre := [Effect.send (Outbound.rollbackOperation "starting" m.commitId
                  none none none none),
                Effect.exec "git fetch --all"]
    match g.fetchAll with
    | .error e => (s, pre ++ [fail e])
    | .ok _ =>
      let pre := pre ++ [Effect.exec ("git reset --hard " ++ jsStr m.commitId)]
      match g.resetHard with
      | .error e => (s, pre ++ [fail e])
      | .ok res =>
        if hasRealError errorIndicatorsRollback res.2 then
          (s, pre ++ [fail ("Git rollback error: " ++ res.2)])
        else
          let pre := pre ++ [Effect.exec "git rev-parse HEAD"]
          let s' := getGitVersionS g.revParseAfter s
          (s', pre ++
            [Effect.send (Outbound.rollbackOperation "completed" none
               s'.gitVersion none (some (composeOutput res.1 res.2)) none),
             Effect.exec "systemctl restart citrus-agent"])

end V1

/-- Modelled from the spec: the `updateKeyFile` persistence routine is
referenced by `handleKeyRotation` in both snapshots but defined in
neither source file we were given.  Per spec section 4.2 it "updates the
persisted secret"; we model it as one persistence attempt whose result
the collaborator supplies. -/
def updateKeyFile (result : Except String Unit) (k : Option String) :
    Except String Unit × List Effect :=
  (result, [Effect.persistKey k])

namespace V2

/-- `handleKeyRotation`, second snapshot (lines 595-614; identical in the
first snapshot): persist via `updateKeyFile`, then set the in-memory key
and report completed; a throw reports failed and leaves the key
untouched. -/
def handleKeyRotation (kf : Except String Unit) (s : AgentState) (m : InMsg) :
    AgentState × List Effect :=
  let attempt := updateKeyFile kf m.newKey
  match attempt.1 with
  | .ok _ =>
      (withKey s m.newKey,
       attempt.2 ++ [Effect.send (Outbound.keyRotation "completed" none)])
  | .error e =>
      (s, attempt.2 ++ [Effect.send (Outbound.keyRotation "failed" (some e))])

/-- `handleUpdateAgent`, second snapshot (lines 616-692): fetch, record
the revision before and after a hard reset; if they are equal report
"already up to date" and return without restarting; otherwise npm
install, report, wait 1s and `process.exit(0)`. -/
def handleUpdateAgent (g : GitEnv) (s : AgentState) :
    AgentState × List Effect :=
  let fail := fun (e : String) =>
    Effect.send (Outbound.statusMsg "update_agent" "failed" none none (some e) none)
  let pre := [Effect.send (Outbound.statusMsg "update_agent" "starting"
                none none none none),
              Effect.exec "git fetch --all"]
  match g.fetchAll with
  | .error e => (s, pre ++ [fail e])
  | .ok _ =>
    let pre := pre ++ [Effect.exec "git rev-parse HEAD"]
    match g.revParseBefore with
    | .error e => (s, pre ++ [fail e])
    | .ok cur =>
      let beforeVersion := jsTrim cur
      let pre := pre ++ [Effect.exec "git reset --hard origin/main"]
      match g.resetHard with
      | .error e => (s, pre ++ [fail e])
      | .ok reset =>
        let resetOutput := reset.1
        let pre := pre ++ [Effect.exec "git rev-parse HEAD"]
        match g.revParseAfter with
        | .error e => (s, pre ++ [fail e])
        | .ok newC =>
          let afterVersion := jsTrim newC
          if beforeVersion == afterVersion then
            (s, pre ++
              [Effect.send (Outbound.statusMsg "update_agent" "completed"
                 (some "Agent code is already up to date.")
                 (some resetOutput) none none),
               Effect.send (Outbound.agentUpdated true none
                 (some "Agent is already up to date"))])
          else
            let pre := pre ++ [Effect.exec "npm install"]
            match g.npmInstall with
            | .error e => (s, pre ++ [fail e])
            | .ok _ =>
              (s, pre ++
                [Effect.send (Outbound.agentUpdated true (some afterVersion) none),
                 Effect.waitMs 1000,
                 Effect.exitProcess 0])

/-- `handleRollbackAgent`, second snapshot (lines 804-848).  Note: this
snapshot has no guard on `commitId`; a missing id is interpolated into
the reset command as the string "undefined". -/
def handleRollbackAgent (g : GitEnv) (s : AgentState) (m : InMsg) :
    AgentState × List Effect :=
  let fail := fun (e : String) =>
    Effect.send (Outbound.rollbackOperation "failed" none none none none (some e))
  let pre := [Effect.send (Outbound.rollbackOperation "starting" none none
                none none none),
              Effect.exec "git fetch --all"]
  match g.fetchAll with
  | .error e => (s, pre ++ [fail e])
  | .ok _ =>
    let pre := pre ++ [Effect.exec ("git reset --hard " ++ jsStr m.commitId)]
    match g.resetHard with
    | .error e => (s, pre ++ [fail e])
    | .ok _ =>
      let pre := pre ++ [Effect.exec "npm install"]
      match g.npmInstall with
      | .error e => (s, pre ++ [fail e])
      | .ok _ =>
        (s, pre ++
          [Effect.send (Outbound.rollbackOperation "completed" none none
             m.commitId none none),
           Effect.waitMs 1000,
           Effect.exitProcess 0])

/-- `handleSystemUpdate`, second snapshot (lines 694-802): check the
install script exists, chmod it, spawn it via sudo streaming every chunk
back as a `running` report, then classify by exit code.  A nonzero exit
or spawn error is reported from inside the promise and again by the
outer catch (the rejection propagates). -/
def handleSystemUpdate (e : SysEnv) (s : AgentState) :
    AgentState × List Effect :=
  let fail := fun (msg : String) =>
    Effect.send (Outbound.statusMsg "system_update" "failed" none none
      (some msg) none)
  let pre := [Effect.send (Outbound.statusMsg "system_update" "starting"
                none none none none),
              Effect.exec "test -f /opt/citrus-agent/updates/install.sh"]
  if !e.scriptExists then
    (s, pre ++ [fail "System update script not found at /opt/citrus-agent/updates/install.sh"])
  else
    let pre := pre ++ [Effect.exec "chmod +x /opt/citrus-agent/updates/install.sh"]
    match e.chmod with
    | .error msg => (s, pre ++ [fail msg])
    | .ok _ =>
      let pre := pre ++
        [Effect.spawnProc "sudo" ["/opt/citrus-agent/updates/install.sh"]]
      let stream := e.chunks.map (fun c =>
        match c with
        | .inl out => Effect.send (Outbound.statusMsg "system_update" "running"
            none (some (jsTrim out)) none none)
        | .inr err => Effect.send (Outbound.statusMsg "system_update" "running"
            none none (some (jsTrim err)) none))
      match e.outcome with
      | .ok 0 =>
        (s, pre ++ stream ++
          [Effect.send (Outbound.statusMsg "system_update" "completed" none
             (some "System update completed successfully") none none)])
      | .ok code =>
        let msg := "System update failed with exit code " ++ toString code
        (s, pre ++ stream ++ [fail msg, fail msg])
      | .error msg =>
        (s, pre ++ stream ++
          [fail ("Process spawn error: " ++ msg), fail msg])

/-- `handleMessage`, second snapshot (lines 562-593): the dispatch
switch; an unrecognized `type` sends one `error` report naming it. -/
def handleMessage (env : Env) (s : AgentState) (m : InMsg) :
    AgentState × List Effect :=
  if m.type == "update_agent" then
    handleUpdateAgent env.git s
  else if m.type == "system_update" then
    handleSystemUpdate env.sys s
  else if m.type == "rollback_agent" then
    handleRollbackAgent env.rollbackGit s m
  else if m.type == "key_rotation" then
    handleKeyRotation env.keyFile s m
  else
    (s, [Effect.send (Outbound.errorReport
          ("Unknown message type: " ++ m.type) none)])

end V2

/-! ## Control channel (second snapshot, `connect`, lines 411-474) -/

/-- The transport-level events one connection's lifecycle delivers to the
agent, plus the firings of the two timers the agent creates. -/
inductive AgentEvent
  | wsOpen
  | wsClose
  | wsMessage (raw : String)
  | wsError (e : String)
  | tick (id : Nat)
  | reconnectFire
deriving DecidableEq, Repr

/-- `connect()` (lines 411-420): opens the transport with the three
identity headers, reading the key from the instance at call time. -/
def connectEffects (s : AgentState) : List Effect :=
  [Effect.wsConnect "agent" s.agentId s.agentKey]

/-- `startStatusUpdates` (lines 476-490): clear any existing heartbeat
interval, then start a fresh 1-minute one.  The fresh timer gets a new
id; a cleared id can never fire again. -/
def startStatusUpdates (s : AgentState) : AgentState × List Effect :=
  ({ s with statusInterval := some s.nextId, nextId := s.nextId + 1 },
   (if s.statusInterval.isSome then [Effect.clearHeartbeat] else []) ++
     [Effect.startHeartbeat 60000])

/-- The `open` handler (lines 422-442): send `agent_connected`, send
`clear_command_state`, then start the heartbeat. -/
def onOpen (s : AgentState) : AgentState × List Effect :=
  let su := startStatusUpdates s
  (su.1,
   Effect.send (Outbound.agentConnected s.agentId) ::
   Effect.send (Outbound.clearCommandState s.agentId
     "Agent restarted, clearing previous command state") ::
   su.2)

/-- The `close` handler (lines 465-469): clear the heartbeat interval and
schedule one `connect()` after the fixed `reconnectTimeout`. -/
def onClose (s : AgentState) : AgentState × List Effect :=
  ({ s with statusInterval := none },
   [Effect.clearHeartbeat, Effect.scheduleReconnect s.reconnectTimeout])

/-- The `message` handler (lines 444-463): JSON.parse the frame, then
dispatch; a parse throw is caught and reported as one `error` frame
carrying the raw input. -/
def connectOnMessage (env : Env) (s : AgentState) (raw : String) :
    AgentState × List Effect :=
  match env.parse raw with
  | .error e =>
      (s, [Effect.send (Outbound.errorReport e (some raw))])
  | .ok m => V2.handleMessage env s m

/-- One firing of the heartbeat interval callback (lines 483-489): build
the status and send it; an exception thrown inside `collectStatus`
escapes the async callback uncaught and nothing is sent. -/
def heartbeatBody (env : Env) (s : AgentState) : AgentState × List Effect :=
  match collectStatus env.status s with
  | (s', .ok st) => (s', [Effect.send (Outbound.statusUpdate st)])
  | (s', .error e) => (s', [Effect.uncaught e])

/-- One event step of the agent.  A `tick id` only runs the heartbeat
body when `id` is the currently live interval. -/
def step (env : Env) (s : AgentState) : AgentEvent → AgentState × List Effect
  | .wsOpen => onOpen s
  | .wsClose => onClose s
  | .wsMessage raw => connectOnMessage env s raw
  | .wsError _ => (s, [])
  | .tick id => if s.statusInterval == some id then heartbeatBody env s else (s, [])
  | .reconnectFire => (s, connectEffects s)

/-- Run a sequence of events, accumulating the effect trace in order. -/
def runEvents (env : Env) (s : AgentState) : List AgentEvent → AgentState × List Effect
  | [] => (s, [])
  | e :: es =>
    let r := step env s e
    let rest := runEvents env r.1 es
    (rest.1, r.2 ++ rest.2)

/-! ## Spec-modelled parts absent from the sources given -/

/-- Modelled from the spec: the full dispatch table of the command
dispatcher (spec section 4.2).  The agent snapshot we were given only
dispatches four of these kinds; the site and SSL handlers are in the part
of the repository not under src/. -/
inductive HandlerKind
  | createSite
  | deleteSite
  | deploySsl
  | redeploySsl
  | turnOffSsl
  | siteInfo
  | updateAgent
  | systemUpdate
  | rollbackAgent
  | keyRotation
deriving DecidableEq, Repr

/-- The ten recognized command kinds (spec section 4.2). -/
def dispatchTypes : List String :=
  ["create_site", "delete_site", "deploy_ssl", "redeploy_ssl",
   "turn_off_ssl", "site_info", "update_agent", "system_update",
   "rollback_agent", "key_rotation"]

/-- Modelled from the spec: the routing of the full dispatch table
(spec sections 2 and 4.2): SSL commands go to the Process Automation
Engine, update commands to the Self-Update Manager. -/
def specDispatch (t : String) : Option HandlerKind :=
  if t == "create_site" then some .createSite
  else if t == "delete_site" then some .deleteSite
  else if t == "deploy_ssl" then some .deploySsl
  else if t == "redeploy_ssl" then some .redeploySsl
  else if t == "turn_off_ssl" then some .turnOffSsl
  else if t == "site_info" then some .siteInfo
  else if t == "update_agent" then some .updateAgent
  else if t == "system_update" then some .systemUpdate
  else if t == "rollback_agent" then some .rollbackAgent
  else if t == "key_rotation" then some .keyRotation
  else none

/-- Observable events of one Process Automation Engine session. -/
inductive EngineEvent
  | stdoutChunk (text : String)
  | stdinWrite (data : String)
deriving DecidableEq, Repr

/-- Modelled from the spec: a prompt rule is a set of required substrings
and the response line to write when all of them appear in one stdout
chunk (spec section 4.3). -/
def ruleMatches (chunk : String) (subs : List String) : Bool :=
  subs.all (fun t => jsIncludes chunk t)

/-- Modelled from the spec: the deploy-SSL prompt rule: the three
reinstall-prompt substrings answered by "1" (spec section 4.3). -/
def deployPromptRules : List (List String × String) :=
  [(["Please select an option from below",
     "1: Reinstall existing certificate",
     "Type the appropriate number"], "1")]

/-- Modelled from the spec: the first rule whose full substring set
appears in the chunk just received determines the response. -/
def firstResponse (rules : List (List String × String)) (chunk : String) :
    Option String :=
  match rules with
  | [] => none
  | r :: rest =>
    if ruleMatches chunk r.1 then some r.2 else firstResponse rest chunk

/-- Modelled from the spec: processing one stdout chunk: record the
chunk, and if a rule fires, write its response line plus a newline to the
subprocess stdin before any further chunk is handled. -/
def chunkEvents (rules : List (List String × String)) (chunk : String) :
    List EngineEvent :=
  EngineEvent.stdoutChunk chunk ::
    (match firstResponse rules chunk with
     | some r => [EngineEvent.stdinWrite (r ++ "\n")]
     | none => [])

/-- Modelled from the spec: a whole session processes its stdout chunks
in arrival order. -/
def runSession (rules : List (List String × String)) :
    List String → List EngineEvent
  | [] => []
  | c :: cs => chunkEvents rules c ++ runSession rules cs

/-! ## Plumbing invariants

No handler touches the heartbeat-timer bookkeeping or the reconnect
delay; only the open and close handlers do.  This is what makes the
temporal claim about closes provable. -/

/-- The timer/reconnect bookkeeping a state `t` shares with `s`. -/
def SamePlumbing (s t : AgentState) : Prop :=
  t.statusInterval = s.statusInterval ∧ t.nextId = s.nextId ∧
    t.reconnectTimeout = s.reconnectTimeout

theorem samePlumbing_refl (s : AgentState) : SamePlumbing s s :=
  ⟨rfl, rfl, rfl⟩

theorem samePlumbing_getGitVersionS (r : Except String String) (s : AgentState) :
    SamePlumbing s (getGitVersionS r s) := by
  unfold getGitVersionS
  rcases r with e | v <;> exact ⟨rfl, rfl, rfl⟩

theorem samePlumbing_v1_update (g : GitEnv) (s : AgentState) :
    SamePlumbing s (V1.handleUpdateAgent g s).1 := by
  unfold V1.handleUpdateAgent
  rcases g.fetchAll with e | v
  · exact ⟨rfl, rfl, rfl⟩
  · rcases g.resetHard with e | res
    · exact ⟨rfl, rfl, rfl⟩
    · dsimp only
      split
      · exact ⟨rfl, rfl, rfl⟩
      · exact samePlumbing_getGitVersionS g.revParseAfter s

theorem samePlumbing_v1_rollback (g : GitEnv) (s : AgentState) (m : InMsg) :
    SamePlumbing s (V1.handleRollbackAgent g s m).1 := by
  unfold V1.handleRollbackAgent
  dsimp only
  split
  · exact ⟨rfl, rfl, rfl⟩
  · rcases g.fetchAll with e | v
    · exact ⟨rfl, rfl, rfl⟩
    · rcases g.resetHard with e | res
      · exact ⟨rfl, rfl, rfl⟩
      · dsimp only
        split
        · exact ⟨rfl, rfl, rfl⟩
        · exact samePlumbing_getGitVersionS g.revParseAfter s

theorem samePlumbing_v2_keyRotation (kf : Except String Unit) (s : AgentState)
    (m : InMsg) : SamePlumbing s (V2.handleKeyRotation kf s m).1 := by
  unfold V2.handleKeyRotation updateKeyFile
  rcases kf with e | u <;> exact ⟨rfl, rfl, rfl⟩

theorem samePlumbing_v2_update (g : GitEnv) (s : AgentState) :
    SamePlumbing s (V2.handleUpdateAgent g s).1 := by
  unfold V2.handleUpdateAgent
  rcases g.fetchAll with e | v
  · exact ⟨rfl, rfl, rfl⟩
  · rcases g.revParseBefore with e | cur
    · exact ⟨rfl, rfl, rfl⟩
    · rcases g.resetHard with e | res
      · exact ⟨rfl, rfl, rfl⟩
      · rcases g.revParseAfter with e | newC
        · exact ⟨rfl, rfl, rfl⟩
        · dsimp only
          split
          · exact ⟨rfl, rfl, rfl⟩
          · rcases g.npmInstall with e | v2 <;> exact ⟨rfl, rfl, rfl⟩

theorem samePlumbing_v2_rollback (g : GitEnv) (s : AgentState) (m : InMsg) :
    SamePlumbing s (V2.handleRollbackAgent g s m).1 := by
  unfold V2.handleRollbackAgent
  rcases g.fetchAll with e | v
  · exact ⟨rfl, rfl, rfl⟩
  · rcases g.resetHard with e | res
    · exact ⟨rfl, rfl, rfl⟩
    · rcases g.npmInstall with e | v2 <;> exact ⟨rfl, rfl, rfl⟩

theorem samePlumbing_v2_systemUpdate (e : SysEnv) (s : AgentState) :
    SamePlumbing s (V2.handleSystemUpdate e s).1 := by
  unfold V2.handleSystemUpdate
  dsimp only
  split
  · exact ⟨rfl, rfl, rfl⟩
  · rcases e.chmod with msg | v
    · exact ⟨rfl, rfl, rfl⟩
    · rcases e.outcome with msg | code
      · exact ⟨rfl, rfl, rfl⟩
      · dsimp only
        split <;> exact ⟨rfl, rfl, rfl⟩

theorem samePlumbing_handleMessage (env : Env) (s : AgentState) (m : InMsg) :
    SamePlumbing s (V2.handleMessage env s m).1 := by
  unfold V2.handleMessage
  split
  · exact samePlumbing_v2_update env.git s
  · split
    · exact samePlumbing_v2_systemUpdate env.sys s
    · split
      · exact samePlumbing_v2_rollback env.rollbackGit s m
      · split
        · exact samePlumbing_v2_keyRotation env.keyFile s m
        · exact ⟨rfl, rfl, rfl⟩

theorem samePlumbing_onMessage (env : Env) (s : AgentState) (raw : String) :
    SamePlumbing s (connectOnMessage env s raw).1 := by
  unfold connectOnMessage
  rcases env.parse raw with e | m
  · exact ⟨rfl, rfl, rfl⟩
  · exact samePlumbing_handleMessage env s m

theorem collectStatus_fst (env : StatusEnv) (s : AgentState) :
    (collectStatus env s).1 = getGitVersionS env.gitRevParse s := by
  unfold collectStatus
  dsimp only
  split <;> rfl

theorem samePlumbing_heartbeatBody (env : Env) (s : AgentState) :
    SamePlumbing s (heartbeatBody env s).1 := by
  unfold heartbeatBody
  rcases hc : collectStatus env.status s with ⟨s', r⟩
  have hs' : s' = getGitVersionS env.status.gitRevParse s := by
    have := collectStatus_fst env.status s
    rw [hc] at this
    exact this
  rcases r with e | st <;>
    simpa [hs'] using samePlumbing_getGitVersionS env.status.gitRevParse s

/-- A timer id that has been cleared: it is strictly below the allocation
counter (so it can never be re-issued) and it is not the live interval. -/
def DeadTimer (i : Nat) (s : AgentState) : Prop :=
  i < s.nextId ∧ s.statusInterval ≠ some i

theorem deadTimer_of_samePlumbing {i : Nat} {s t : AgentState}
    (hp : SamePlumbing s t) (hd : DeadTimer i s) : DeadTimer i t := by
  refine ⟨?_, ?_⟩
  · rw [hp.2.1]; exact hd.1
  · rw [hp.1]; exact hd.2

theorem deadTimer_step (env : Env) (s : AgentState) (e : AgentEvent)
    {i : Nat} (hd : DeadTimer i s) : DeadTimer i (step env s e).1 := by
  cases e with
  | wsOpen =>
      refine ⟨?_, ?_⟩
      · show i < s.nextId + 1
        exact Nat.lt_succ_of_lt hd.1
      · show some s.nextId ≠ some i
        intro hc
        exact (Nat.ne_of_gt hd.1) (Option.some.inj hc)
  | wsClose =>
      exact ⟨hd.1, by simp [step, onClose]⟩
  | wsMessage raw =>
      exact deadTimer_of_samePlumbing (samePlumbing_onMessage env s raw) hd
  | wsError e => exact hd
  | tick id =>
      show DeadTimer i (if s.statusInterval == some id then
        heartbeatBody env s else (s, [])).1
      split
      · exact deadTimer_of_samePlumbing (samePlumbing_heartbeatBody env s) hd
      · exact hd
  | reconnectFire => exact hd

theorem deadTimer_runEvents (env : Env) {i : Nat} :
    ∀ (evs : List AgentEvent) (s : AgentState), DeadTimer i s →
      DeadTimer i (runEvents env s evs).1
  | [], s, hd => hd
  | e :: es, s, hd =>
      deadTimer_runEvents env es (step env s e).1 (deadTimer_step env s e hd)

theorem tick_dead (env : Env) (s : AgentState) (i : Nat)
    (h : s.statusInterval ≠ some i) : (step env s (.tick i)).2 = [] := by
  show (if s.statusInterval == some i then heartbeatBody env s else (s, [])).2 = []
  rw [beq_eq_false_iff_ne.mpr h]
  rfl

theorem reconnectTimeout_step (env : Env) (s : AgentState) (e : AgentEvent) :
    (step env s e).1.reconnectTimeout = s.reconnectTimeout := by
  cases e with
  | wsOpen => rfl
  | wsClose => rfl
  | wsMessage raw => exact (samePlumbing_onMessage env s raw).2.2
  | wsError e => rfl
  | tick id =>
      show (if s.statusInterval == some id then
        heartbeatBody env s else (s, [])).1.reconnectTimeout = _
      split
      · exact (samePlumbing_heartbeatBody env s).2.2
      · rfl
  | reconnectFire => rfl

theorem reconnectTimeout_runEvents (env : Env) :
    ∀ (evs : List AgentEvent) (s : AgentState),
      (runEvents env s evs).1.reconnectTimeout = s.reconnectTimeout
  | [], _ => rfl
  | e :: es, s => by
      show (runEvents env (step env s e).1 es).1.reconnectTimeout = _
      rw [reconnectTimeout_runEvents env es (step env s e).1,
        reconnectTimeout_step env s e]

/-! ## Concrete fixtures used by witnesses -/

def gitEnvW : GitEnv :=
  { fetchAll := .ok ""
    revParseBefore := .ok "abc123\n"
    resetHard := .ok ("HEAD is now at abc123", "")
    revParseAfter := .ok "abc123\n"
    npmInstall := .ok ""
    systemctlRestart := .ok "" }

def gitEnvFatalW : GitEnv :=
  { gitEnvW with resetHard := .ok ("", "fatal: not a git repository") }

def statusEnvW : StatusEnv :=
  { gitRevParse := .ok "abc123"
    cpuLoad := 0
    memTotal := 0
    memUsed := 0
    memFree := 0
    fsSize := []
    mariadb := .ok "active"
    lshttpd := .ok "active"
    hostname := "h"
    uptime := 0
    cores := 1
    now := 0 }

def sysEnvW : SysEnv :=
  { scriptExists := true, chmod := .ok "", chunks := [], outcome := .ok 0 }

def envW : Env :=
  { parse := fun _ => .error "Unexpected token u in JSON at position 0"
    git := gitEnvW
    rollbackGit := gitEnvW
    keyFile := .ok ()
    status := statusEnvW
    sys := sysEnvW }

def stateW : AgentState :=
  { agentId := "agent-1"
    agentKey := some "key-1"
    reconnectTimeout := 5000
    statusInterval := some 0
    nextId := 1
    gitVersion := none }

/-! ## Claims -/

/-- C1: for every inbound frame whose `type` is not one of the ten
dispatch-table kinds, `handleMessage` sends exactly one outbound `error`
report naming that type, invokes no handler (no collaborator call, no
subprocess), and neither exits the process nor touches the connection or
its timers. -/
theorem claim_C1_unknown_type_error (env : Env) (s : AgentState) (m : InMsg)
    (h : m.type ∉ dispatchTypes) :
    V2.handleMessage env s m =
      (s, [Effect.send (Outbound.errorReport
        ("Unknown message type: " ++ m.type) none)]) ∧
    (∀ c, Effect.exec c ∉ (V2.handleMessage env s m).2) ∧
    (∀ c, Effect.exitProcess c ∉ (V2.handleMessage env s m).2) ∧
    Effect.clearHeartbeat ∉ (V2.handleMessage env s m).2 := by
  have h1 : m.type ≠ "update_agent" := by
    intro hh; exact h (by rw [hh]; decide)
  have h2 : m.type ≠ "system_update" := by
    intro hh; exact h (by rw [hh]; decide)
  have h3 : m.type ≠ "rollback_agent" := by
    intro hh; exact h (by rw [hh]; decide)
  have h4 : m.type ≠ "key_rotation" := by
    intro hh; exact h (by rw [hh]; decide)
  have he : V2.handleMessage env s m =
      (s, [Effect.send (Outbound.errorReport
        ("Unknown message type: " ++ m.type) none)]) := by
    unfold V2.handleMessage
    rw [beq_eq_false_iff_ne.mpr h1, beq_eq_false_iff_ne.mpr h2,
      beq_eq_false_iff_ne.mpr h3, beq_eq_false_iff_ne.mpr h4]
    rfl
  refine ⟨he, ?_, ?_, ?_⟩ <;> simp [he]

/-- Witness for C1 at the concrete unknown kind "bogus". -/
theorem claim_C1_witness :
    ("bogus" : String) ∉ dispatchTypes ∧
    (V2.handleMessage envW stateW { type := "bogus" } =
      (stateW, [Effect.send (Outbound.errorReport
        "Unknown message type: bogus" none)]) ∧
    (∀ c, Effect.exec c ∉ (V2.handleMessage envW stateW { type := "bogus" }).2) ∧
    (∀ c, Effect.exitProcess c ∉
      (V2.handleMessage envW stateW { type := "bogus" }).2) ∧
    Effect.clearHeartbeat ∉ (V2.handleMessage envW stateW { type := "bogus" }).2) :=
  ⟨by decide, claim_C1_unknown_type_error envW stateW { type := "bogus" } (by decide)⟩

/-- C2: every successful connection open synchronously emits, in order,
`agent_connected` then `clear_command_state`, then starts the heartbeat
timer, and all of this precedes every effect of every later event of the
connection. -/
theorem claim_C2_open_sequence (env : Env) (s : AgentState)
    (evs : List AgentEvent) :
    (runEvents env s (AgentEvent.wsOpen :: evs)).2 =
      Effect.send (Outbound.agentConnected s.agentId) ::
      Effect.send (Outbound.clearCommandState s.agentId
        "Agent restarted, clearing previous command state") ::
      ((if s.statusInterval.isSome then [Effect.clearHeartbeat] else []) ++
        Effect.startHeartbeat 60000 ::
          (runEvents env (onOpen s).1 evs).2) := by
  show ((onOpen s).2 ++ (runEvents env (onOpen s).1 evs).2) = _
  unfold onOpen startStatusUpdates
  dsimp only
  split <;> simp

/-- C3: a transport close always cancels the heartbeat interval and
schedules exactly one reconnect after the fixed 5-second delay; the
interval that was live before the close can never fire again afterwards
(under any continuation of events); and the delay never grows under any
event sequence (no backoff, no retry limit). -/
theorem claim_C3_close_reconnect (env : Env) (s : AgentState) (i : Nat)
    (hlive : s.statusInterval = some i) (hfresh : i < s.nextId)
    (hdelay : s.reconnectTimeout = 5000) :
    (step env s .wsClose).2 =
      [Effect.clearHeartbeat, Effect.scheduleReconnect 5000] ∧
    (∀ evs, (step env (runEvents env (step env s .wsClose).1 evs).1
      (.tick i)).2 = []) ∧
    (∀ evs, (runEvents env s evs).1.reconnectTimeout = 5000) := by
  refine ⟨?_, ?_, ?_⟩
  · show [Effect.clearHeartbeat, Effect.scheduleReconnect s.reconnectTimeout] = _
    rw [hdelay]
  · intro evs
    have hdead : DeadTimer i (step env s .wsClose).1 := by
      refine ⟨hfresh, ?_⟩
      show (none : Option Nat) ≠ some i
      simp
    have hdead2 := deadTimer_runEvents env evs (step env s .wsClose).1 hdead
    exact tick_dead env _ i hdead2.2
  · intro evs
    rw [reconnectTimeout_runEvents env evs s, hdelay]

/-- Witness for C3 at a concrete state with live interval id 0. -/
theorem claim_C3_witness :
    stateW.statusInterval = some 0 ∧ 0 < stateW.nextId ∧
    (step envW stateW .wsClose).2 =
      [Effect.clearHeartbeat, Effect.scheduleReconnect 5000] :=
  ⟨rfl, by decide,
    (claim_C3_close_reconnect envW stateW 0 rfl (by decide) rfl).1⟩

/-- C4: a `key_rotation` command carrying a `newKey` attempts the
persistence routine; on success the in-memory key becomes `newKey` (so
the next `connect()` presents it) and one `completed` report is sent; on
failure one `failed` report carries the error message and the key is
unchanged; in neither case does the handler reconnect, exit, or touch the
heartbeat. -/
theorem claim_C4_key_rotation (kf : Except String Unit) (s : AgentState)
    (m : InMsg) (k : String) (h : m.newKey = some k) :
    (kf = .ok () →
      V2.handleKeyRotation kf s m =
        (withKey s (some k),
         [Effect.persistKey (some k),
          Effect.send (Outbound.keyRotation "completed" none)]) ∧
      connectEffects (V2.handleKeyRotation kf s m).1 =
        [Effect.wsConnect "agent" s.agentId (some k)]) ∧
    (∀ e, kf = .error e →
      V2.handleKeyRotation kf s m =
        (s, [Effect.persistKey (some k),
             Effect.send (Outbound.keyRotation "failed" (some e))])) ∧
    (∀ c a key, Effect.wsConnect c a key ∉ (V2.handleKeyRotation kf s m).2) ∧
    (∀ c, Effect.exitProcess c ∉ (V2.handleKeyRotation kf s m).2) ∧
    Effect.clearHeartbeat ∉ (V2.handleKeyRotation kf s m).2 := by
  refine ⟨?_, ?_, ?_, ?_, ?_⟩
  · intro hok
    subst hok
    constructor <;>
      simp [V2.handleKeyRotation, updateKeyFile, connectEffects, h]
  · intro e her
    subst her
    simp [V2.handleKeyRotation, updateKeyFile, h]
  · intro c a key
    rcases kf with e | u <;> simp [V2.handleKeyRotation, updateKeyFile]
  · intro c
    rcases kf with e | u <;> simp [V2.handleKeyRotation, updateKeyFile]
  · rcases kf with e | u <;> simp [V2.handleKeyRotation, updateKeyFile]

/-- Witness for C4 at a concrete rotation to "key-2" that persists
successfully. -/
theorem claim_C4_witness :
    (InMsg.newKey { type := "key_rotation", newKey := some "key-2" } =
      some "key-2") ∧
    ((Except.ok () = (.ok () : Except String Unit) →
      V2.handleKeyRotation (.ok ()) stateW
          { type := "key_rotation", newKey := some "key-2" } =
        (withKey stateW (some "key-2"),
         [Effect.persistKey (some "key-2"),
          Effect.send (Outbound.keyRotation "completed" none)]) ∧
      connectEffects (V2.handleKeyRotation (.ok ()) stateW
          { type := "key_rotation", newKey := some "key-2" }).1 =
        [Effect.wsConnect "agent" stateW.agentId (some "key-2")]) ∧
    (∀ e, (.ok () : Except String Unit) = .error e →
      V2.handleKeyRotation (.ok ()) stateW
          { type := "key_rotation", newKey := some "key-2" } =
        (stateW, [Effect.persistKey (some "key-2"),
                  Effect.send (Outbound.keyRotation "failed" (some e))])) ∧
    (∀ c a key, Effect.wsConnect c a key ∉
      (V2.handleKeyRotation (.ok ()) stateW
        { type := "key_rotation", newKey := some "key-2" }).2) ∧
    (∀ c, Effect.exitProcess c ∉
      (V2.handleKeyRotation (.ok ()) stateW
        { type := "key_rotation", newKey := some "key-2" }).2) ∧
    Effect.clearHeartbeat ∉
      (V2.handleKeyRotation (.ok ()) stateW
        { type := "key_rotation", newKey := some "key-2" }).2) :=
  ⟨rfl, claim_C4_key_rotation (.ok ()) stateW
    { type := "key_rotation", newKey := some "key-2" } "key-2" rfl⟩

/-- C5: when the resolved revision before the hard reset equals the one
after it, `handleUpdateAgent` (second snapshot) reports `completed` with
the "already up to date" message and stops: no `process.exit`, no
service-manager restart call. -/
theorem claim_C5_already_up_to_date (g : GitEnv) (s : AgentState)
    (fo b a : String) (rr : String × String)
    (h1 : g.fetchAll = .ok fo) (h2 : g.revParseBefore = .ok b)
    (h3 : g.resetHard = .ok rr) (h4 : g.revParseAfter = .ok a)
    (h5 : jsTrim b = jsTrim a) :
    V2.handleUpdateAgent g s =
      (s, [Effect.send (Outbound.statusMsg "update_agent" "starting"
             none none none none),
           Effect.exec "git fetch --all",
           Effect.exec "git rev-parse HEAD",
           Effect.exec "git reset --hard origin/main",
           Effect.exec "git rev-parse HEAD",
           Effect.send (Outbound.statusMsg "update_agent" "completed"
             (some "Agent code is already up to date.") (some rr.1) none none),
           Effect.send (Outbound.agentUpdated true none
             (some "Agent is already up to date"))]) ∧
    (∀ c, Effect.exitProcess c ∉ (V2.handleUpdateAgent g s).2) ∧
    Effect.exec "systemctl restart citrus-agent" ∉
      (V2.handleUpdateAgent g s).2 := by
  have he : V2.handleUpdateAgent g s =
      (s, [Effect.send (Outbound.statusMsg "update_agent" "starting"
             none none none none),
           Effect.exec "git fetch --all",
           Effect.exec "git rev-parse HEAD",
           Effect.exec "git reset --hard origin/main",
           Effect.exec "git rev-parse HEAD",
           Effect.send (Outbound.statusMsg "update_agent" "completed"
             (some "Agent code is already up to date.") (some rr.1) none none),
           Effect.send (Outbound.agentUpdated true none
             (some "Agent is already up to date"))]) := by
    unfold V2.handleUpdateAgent
    rw [h1, h2, h3, h4]
    dsimp only
    rw [beq_iff_eq.mpr h5]
    rfl
  refine ⟨he, ?_, ?_⟩ <;> simp [he]

/-- Witness for C5: both rev-parse calls resolve "abc123". -/
theorem claim_C5_witness :
    gitEnvW.fetchAll = .ok "" ∧
    gitEnvW.revParseBefore = .ok "abc123\n" ∧
    gitEnvW.revParseAfter = .ok "abc123\n" ∧
    (∀ c, Effect.exitProcess c ∉ (V2.handleUpdateAgent gitEnvW stateW).2) ∧
    Effect.exec "systemctl restart citrus-agent" ∉
      (V2.handleUpdateAgent gitEnvW stateW).2 :=
  ⟨rfl, rfl, rfl,
    (claim_C5_already_up_to_date gitEnvW stateW "" "abc123\n" "abc123\n"
      ("HEAD is now at abc123", "") rfl rfl rfl rfl rfl).2.1,
    (claim_C5_already_up_to_date gitEnvW stateW "" "abc123\n" "abc123\n"
      ("HEAD is now at abc123", "") rfl rfl rfl rfl rfl).2.2⟩

/-- C6: a `rollback_agent` command with no `commitId` field makes the
handler (first snapshot) report one `failed` frame with a descriptive
error and run no subprocess at all: there is no exec effect, so neither
`git fetch` nor `git reset` is invoked. -/
theorem claim_C6_rollback_without_commit (g : GitEnv) (s : AgentState)
    (m : InMsg) (h : m.commitId = none) :
    V1.handleRollbackAgent g s m =
      (s, [Effect.send (Outbound.rollbackOperation "failed" none none none
            none (some "No commit ID provided for rollback"))]) ∧
    ∀ c, Effect.exec c ∉ (V1.handleRollbackAgent g s m).2 := by
  have he : V1.handleRollbackAgent g s m =
      (s, [Effect.send (Outbound.rollbackOperation "failed" none none none
            none (some "No commit ID provided for rollback"))]) := by
    unfold V1.handleRollbackAgent
    rw [h]
    rfl
  exact ⟨he, by simp [he]⟩

/-- Witness for C6 at a concrete rollback command with no commit id. -/
theorem claim_C6_witness :
    (InMsg.commitId { type := "rollback_agent" } = none) ∧
    (V1.handleRollbackAgent gitEnvW stateW { type := "rollback_agent" } =
      (stateW, [Effect.send (Outbound.rollbackOperation "failed" none none
        none none (some "No commit ID provided for rollback"))]) ∧
    ∀ c, Effect.exec c ∉
      (V1.handleRollbackAgent gitEnvW stateW { type := "rollback_agent" }).2) :=
  ⟨rfl, claim_C6_rollback_without_commit gitEnvW stateW
    { type := "rollback_agent" } rfl⟩

/-- C7: `deploy_ssl` is routed to the Process Automation Engine, and for
any stdout chunk in which all three reinstall-prompt substrings appear,
the engine writes exactly "1" plus a newline to the subprocess stdin
immediately after that chunk and before any later chunk is processed.
The engine is modelled from the spec (section 4.3); it is absent from the
source files given. -/
theorem claim_C7_deploy_prompt (pre post : List String) (c : String)
    (h : ruleMatches c ["Please select an option from below",
          "1: Reinstall existing certificate",
          "Type the appropriate number"] = true) :
    specDispatch "deploy_ssl" = some HandlerKind.deploySsl ∧
    runSession deployPromptRules (pre ++ c :: post) =
      runSession deployPromptRules pre ++
        (EngineEvent.stdoutChunk c :: EngineEvent.stdinWrite "1\n" ::
          runSession deployPromptRules post) := by
  have hfr : firstResponse deployPromptRules c = some "1" := by
    simp [firstResponse, deployPromptRules, h]
  refine ⟨rfl, ?_⟩
  induction pre with
  | nil => simp [runSession, chunkEvents, hfr]
  | cons p ps ih =>
      show chunkEvents deployPromptRules p ++
        runSession deployPromptRules (ps ++ c :: post) = _
      rw [ih]
      simp [runSession]

/-- Witness for C7 at one concrete chunk holding the whole prompt. -/
theorem claim_C7_witness :
    ruleMatches "Please select an option from below\n1: Reinstall existing certificate\n2: Renew and replace the certificate\nType the appropriate number or c to cancel: "
      ["Please select an option from below",
       "1: Reinstall existing certificate",
       "Type the appropriate number"] = true ∧
    runSession deployPromptRules
      ["Please select an option from below\n1: Reinstall existing certificate\n2: Renew and replace the certificate\nType the appropriate number or c to cancel: "] =
      [EngineEvent.stdoutChunk "Please select an option from below\n1: Reinstall existing certificate\n2: Renew and replace the certificate\nType the appropriate number or c to cancel: ",
       EngineEvent.stdinWrite "1\n"] :=
  ⟨by decide,
    (claim_C7_deploy_prompt [] []
      "Please select an option from below\n1: Reinstall existing certificate\n2: Renew and replace the certificate\nType the appropriate number or c to cancel: "
      (by decide)).2⟩

/-- The outbound reports carried by an effect list, in order. -/
def sendsOf (l : List Effect) : List Outbound :=
  l.filterMap (fun e => match e with | .send m => some m | _ => none)

/-- C8: in the first snapshot's update and rollback handlers, when the
reset subprocess itself succeeds, a case-insensitive failure marker in
the captured stderr turns the operation into a `failed` report carrying
the diagnostic text, and the absence of any marker yields a `completed`
report. -/
theorem claim_C8_stderr_heuristic (g : GitEnv) (s : AgentState)
    (fo out err : String)
    (h1 : g.fetchAll = .ok fo) (h2 : g.resetHard = .ok (out, err)) :
    (hasRealError errorIndicatorsUpdate err = true →
      sendsOf (V1.handleUpdateAgent g s).2 =
        [Outbound.updateOperation "starting" none none none,
         Outbound.updateOperation "failed" none none
           (some ("Git update error: " ++ err))]) ∧
    (hasRealError errorIndicatorsUpdate err = false →
      sendsOf (V1.handleUpdateAgent g s).2 =
        [Outbound.updateOperation "starting" none none none,
         Outbound.updateOperation "completed"
           (getGitVersionS g.revParseAfter s).gitVersion
           (some (composeOutput out err)) none]) ∧
    (∀ (g2 : GitEnv) (s2 : AgentState) (m : InMsg) (c fo2 out2 err2 : String),
      m.commitId = some c → c.isEmpty = false →
      g2.fetchAll = .ok fo2 → g2.resetHard = .ok (out2, err2) →
      (hasRealError errorIndicatorsRollback err2 = true →
        sendsOf (V1.handleRollbackAgent g2 s2 m).2 =
          [Outbound.rollbackOperation "starting" (some c) none none none none,
           Outbound.rollbackOperation "failed" none none none none
             (some ("Git rollback error: " ++ err2))]) ∧
      (hasRealError errorIndicatorsRollback err2 = false →
        sendsOf (V1.handleRollbackAgent g2 s2 m).2 =
          [Outbound.rollbackOperation "starting" (some c) none none none none,
           Outbound.rollbackOperation "completed" none
             (getGitVersionS g2.revParseAfter s2).gitVersion none
             (some (composeOutput out2 err2)) none])) := by
  refine ⟨?_, ?_, ?_⟩
  · intro hm
    unfold V1.handleUpdateAgent
    rw [h1, h2]
    dsimp only
    rw [hm]
    rfl
  · intro hm
    unfold V1.handleUpdateAgent
    rw [h1, h2]
    dsimp only
    rw [hm]
    simp [sendsOf]
  · intro g2 s2 m c fo2 out2 err2 hc hcne hf2 hr2
    have hfal : jsFalsy m.commitId = false := by
      rw [hc]
      simp [jsFalsy, hcne]
    constructor
    · intro hm
      unfold V1.handleRollbackAgent
      rw [hfal, hc, hf2, hr2]
      dsimp only
      rw [hm]
      rfl
    · intro hm
      unfold V1.handleRollbackAgent
      rw [hfal, hc, hf2, hr2]
      dsimp only
      rw [hm]
      simp [sendsOf]

/-- Witness for C8: a reset whose stderr holds "fatal: not a git
repository" is reported failed even though the subprocess succeeded. -/
theorem claim_C8_witness :
    gitEnvFatalW.fetchAll = .ok "" ∧
    gitEnvFatalW.resetHard = .ok ("", "fatal: not a git repository") ∧
    hasRealError errorIndicatorsUpdate "fatal: not a git repository" = true ∧
    sendsOf (V1.handleUpdateAgent gitEnvFatalW stateW).2 =
      [Outbound.updateOperation "starting" none none none,
       Outbound.updateOperation "failed" none none
         (some "Git update error: fatal: not a git repository")] :=
  ⟨rfl, rfl, by decide,
    (claim_C8_stderr_heuristic gitEnvFatalW stateW ""
      "" "fatal: not a git repository" rfl rfl).1 (by decide)⟩

/-- C9: an inbound frame that fails to decode produces exactly one
outbound `error` report carrying the decode failure description and the
original raw frame, and nothing else: the handler neither exits the
process, nor lets the exception escape, nor closes or reopens the
connection, nor schedules a reconnect. -/
theorem claim_C9_decode_failure (env : Env) (s : AgentState) (raw e : String)
    (h : env.parse raw = .error e) :
    step env s (.wsMessage raw) =
      (s, [Effect.send (Outbound.errorReport e (some raw))]) ∧
    (∀ c, Effect.exitProcess c ∉ (step env s (.wsMessage raw)).2) ∧
    (∀ msg, Effect.uncaught msg ∉ (step env s (.wsMessage raw)).2) ∧
    (∀ d, Effect.scheduleReconnect d ∉ (step env s (.wsMessage raw)).2) ∧
    (∀ c a key, Effect.wsConnect c a key ∉ (step env s (.wsMessage raw)).2) := by
  have he : step env s (.wsMessage raw) =
      (s, [Effect.send (Outbound.errorReport e (some raw))]) := by
    show connectOnMessage env s raw = _
    unfold connectOnMessage
    rw [h]
  refine ⟨he, ?_, ?_, ?_, ?_⟩ <;> simp [he]

/-- Witness for C9 at a concrete malformed frame. -/
theorem claim_C9_witness :
    envW.parse "not json" =
      .error "Unexpected token u in JSON at position 0" ∧
    step envW stateW (.wsMessage "not json") =
      (stateW, [Effect.send (Outbound.errorReport
        "Unexpected token u in JSON at position 0" (some "not json"))]) :=
  ⟨rfl,
    (claim_C9_decode_failure envW stateW "not json"
      "Unexpected token u in JSON at position 0" rfl).1⟩

/-- C10: `collectStatus` is total only when the telemetry collaborator
returns a non-empty filesystem list.  With an empty list the
`disk.find(..) || disk[0]` fallback is undefined and the property access
throws, so a heartbeat tick sends no `status_update` and the exception
escapes the interval callback uncaught; with any non-empty list
`collectStatus` returns a snapshot. -/
theorem claim_C10_empty_fs_list (env : Env) (s : AgentState) (i : Nat)
    (hlive : s.statusInterval = some i) (hempty : env.status.fsSize = []) :
    (collectStatus env.status s).2 =
      .error "TypeError: Cannot read properties of undefined" ∧
    (step env s (.tick i)).2 =
      [Effect.uncaught "TypeError: Cannot read properties of undefined"] ∧
    (∀ m, Effect.send m ∉ (step env s (.tick i)).2) ∧
    (∀ (env2 : StatusEnv) (s2 : AgentState), env2.fsSize ≠ [] →
      ∃ st, (collectStatus env2 s2).2 = Except.ok st) := by
  have hcs : (collectStatus env.status s).2 =
      .error "TypeError: Cannot read properties of undefined" := by
    unfold collectStatus
    rw [hempty]
    rfl
  have hstep : (step env s (.tick i)).2 =
      [Effect.uncaught "TypeError: Cannot read properties of undefined"] := by
    show (if s.statusInterval == some i then heartbeatBody env s
      else (s, [])).2 = _
    rw [hlive]
    simp only [beq_self_eq_true, if_true]
    unfold heartbeatBody
    rcases hc : collectStatus env.status s with ⟨s', r⟩
    rw [hc] at hcs
    dsimp only at hcs
    rw [hcs]
  refine ⟨hcs, hstep, by simp [hstep], ?_⟩
  intro env2 s2 hne
  rcases hd : env2.fsSize with _ | ⟨d, rest⟩
  · exact absurd hd hne
  · unfold collectStatus
    rw [hd]
    dsimp only
    rcases hf : List.find? (fun d => d.fs == "/" || d.mount == "/") (d :: rest)
      with _ | d2
    · rw [hf]
      exact ⟨_, rfl⟩
    · rw [hf]
      exact ⟨_, rfl⟩

/-- Witness for C10 at a concrete empty filesystem list. -/
theorem claim_C10_witness :
    stateW.statusInterval = some 0 ∧ statusEnvW.fsSize = [] ∧
    (step envW stateW (.tick 0)).2 =
      [Effect.uncaught "TypeError: Cannot read properties of undefined"] :=
  ⟨rfl, rfl,
    (claim_C10_empty_fs_list envW stateW 0 rfl rfl).2.1⟩
